import Mathlib

/-!
Verification of the core state machines of "The Watcher: Night Shift".

The embedding covers the flashlight battery system (src/flashlight.js),
the door system (the keydown handler and triggerDoorBreak of the main
module), the ghost state machine (src/enemy.js) and the restart and
game-over plumbing of the main module's animate loop.

Numbers are modelled as rationals and each frame's dt is an explicit
argument.  Purely visual effects (meshes, materials, lights, console
logging, screen shake, UI text) carry no game-logic state and are
omitted; the geometric flashlight-cone test of the stalk phase is
abstracted into a per-frame Boolean input because its inputs (camera
orientation) live outside the embedded state.
-/

namespace NightShift

/-- Battery and switch state of `FlashlightSystem` (src/flashlight.js).
Visual-only fields (meshes, bars, materials) are omitted. -/
structure FlashlightState where
  isOn : Bool
  isDepleted : Bool
  battery : ℚ
  usageTimer : ℚ
  rechargeTimer : ℚ
deriving DecidableEq, Repr

/-- CONFIG.maxBattery -/
def maxBattery : ℚ := 6

/-- CONFIG.drainRate: on, one unit every 3 seconds -/
def drainRate : ℚ := 3

/-- CONFIG.rechargeDelay: depleted, wait 5 seconds -/
def rechargeDelay : ℚ := 5

/-- CONFIG.passiveRechargeSpeed: off, 0.5 units per second -/
def passiveRechargeSpeed : ℚ := 1/2

/-- The `FlashlightSystem` constructor's initial state. -/
def flInit : FlashlightState :=
  { isOn := false, isDepleted := false, battery := maxBattery,
    usageTimer := 0, rechargeTimer := 0 }

/-- `consumeBatteryStep`: subtract one unit; when the result is ≤ 0,
clamp to 0 and run `triggerDepletion` (isOn := false,
isDepleted := true, visuals off). -/
def consumeBatteryStep (s : FlashlightState) : FlashlightState :=
  let b := s.battery - 1
  if b ≤ 0 then
    { s with battery := 0, isOn := false, isDepleted := true }
  else
    { s with battery := b }

/-- `toggle`: refuse to turn on with battery below one unit; otherwise
flip `isOn`; when turning on, immediately consume one unit and zero the
usage timer (in that order, as in the source). -/
def toggle (s : FlashlightState) : FlashlightState :=
  if s.isOn = false ∧ s.battery < 1 then s
  else if s.isOn = false then
    let s1 := consumeBatteryStep { s with isOn := true }
    { s1 with usageTimer := 0 }
  else
    { s with isOn := false }

/-- `pressButton`: button-mesh animation only, no logical state change. -/
def pressButton (s : FlashlightState) : FlashlightState := s

/-- `releaseButton`: calls `toggle` unless depleted. -/
def releaseButton (s : FlashlightState) : FlashlightState :=
  if s.isDepleted then s else toggle s

/-- `update(dt)`: forced off while depleted, then the three-way logic
branch: (A) depleted, accumulate `rechargeTimer` and at ≥ 5 s restore
1.1 units; (B) on, accumulate `usageTimer` and at ≥ 3 s consume a unit;
(C) off and not depleted, passive recharge clamped at `maxBattery`. -/
def update (s : FlashlightState) (dt : ℚ) : FlashlightState :=
  let s0 := if s.isDepleted then { s with isOn := false } else s
  if s0.isDepleted then
    let rt := s0.rechargeTimer + dt
    if rechargeDelay ≤ rt then
      { s0 with battery := 11/10, isDepleted := false, rechargeTimer := 0 }
    else
      { s0 with rechargeTimer := rt }
  else if s0.isOn then
    let ut := s0.usageTimer + dt
    if drainRate ≤ ut then
      { (consumeBatteryStep s0) with usageTimer := 0 }
    else
      { s0 with usageTimer := ut }
  else
    if s0.battery < maxBattery then
      let b := s0.battery + passiveRechargeSpeed * dt
      { s0 with battery := if maxBattery < b then maxBattery else b }
    else s0

/-- A player or frame operation on the flashlight system. -/
inductive FlOp where
  | press
  | release
  | tog
  | upd (dt : ℚ)
deriving DecidableEq, Repr

/-- Apply one flashlight operation. -/
def applyFlOp (s : FlashlightState) : FlOp → FlashlightState
  | .press => pressButton s
  | .release => releaseButton s
  | .tog => toggle s
  | .upd dt => update s dt

/-- Apply a sequence of flashlight operations. -/
def applyFlOps (s : FlashlightState) (ops : List FlOp) : FlashlightState :=
  ops.foldl applyFlOp s

/-- The frame time of an `update` operation is nonnegative; other
operations carry no time. -/
def FlOp.dtOk : FlOp → Prop
  | .upd dt => 0 ≤ dt
  | _ => True

instance : DecidablePred FlOp.dtOk := by
  intro op
  cases op <;> simp only [FlOp.dtOk] <;> infer_instance

/-- Door-related fields of the main module's `gameState`. -/
structure DoorsState where
  leftOpen : Bool
  rightOpen : Bool
  leftBroken : Bool
  rightBroken : Bool
deriving DecidableEq, Repr

/-- The initial `gameState` door fields: both open, neither broken. -/
def doorsInit : DoorsState :=
  { leftOpen := true, rightOpen := true, leftBroken := false, rightBroken := false }

/-- `triggerDoorBreak('left')` restricted to the door fields: mark
broken and force open.  (Its ghost side effect `onGhostHitByDoor` is
modelled separately on the ghost state.) -/
def triggerDoorBreakLeft (s : DoorsState) : DoorsState :=
  { s with leftBroken := true, leftOpen := true }

/-- `triggerDoorBreak('right')` restricted to the door fields. -/
def triggerDoorBreakRight (s : DoorsState) : DoorsState :=
  { s with rightBroken := true, rightOpen := true }

/-- The `keydown KeyQ` branch of `setupInputs`: no-op when the left door
is broken; break when closing onto a blocking ghost; otherwise toggle
with the mutual-exclusion rule.  `blocking` is the value of
`isGhostBlockingDoor('left')` at the keypress. -/
def keydownQ (blocking : Bool) (s : DoorsState) : DoorsState :=
  if s.leftBroken then s
  else if s.leftOpen && blocking then triggerDoorBreakLeft s
  else
    let s1 := { s with leftOpen := !s.leftOpen }
    if !s1.leftOpen && !s1.rightOpen then { s1 with rightOpen := true } else s1

/-- The `keydown KeyE` branch of `setupInputs`, symmetric to `keydownQ`. -/
def keydownE (blocking : Bool) (s : DoorsState) : DoorsState :=
  if s.rightBroken then s
  else if s.rightOpen && blocking then triggerDoorBreakRight s
  else
    let s1 := { s with rightOpen := !s.rightOpen }
    if !s1.rightOpen && !s1.leftOpen then { s1 with leftOpen := true } else s1

/-- A door keypress; the Boolean is the ghost-blocking status of the
pressed side at that instant. -/
inductive DoorOp where
  | q (blocking : Bool)
  | e (blocking : Bool)
deriving DecidableEq, Repr

/-- Apply one door keypress. -/
def applyDoorOp (s : DoorsState) : DoorOp → DoorsState
  | .q b => keydownQ b s
  | .e b => keydownE b s

/-- Apply a sequence of door keypresses. -/
def applyDoorOps (s : DoorsState) (ops : List DoorOp) : DoorsState :=
  ops.foldl applyDoorOp s

/-- The ghost phases of src/enemy.js (`ghostState.phase`). -/
inductive Phase where
  | wander
  | approach
  | stalk
  | attack
  | retreat
deriving DecidableEq, Repr

/-- `ghostState.attackSide`: 'left', 'right' or 'none'. -/
inductive Side where
  | left
  | right
  | none
deriving DecidableEq, Repr

/-- The scalar fields of `ghostState` (src/enemy.js); mesh position and
colour are visual and omitted. -/
structure GhostState where
  phase : Phase
  attackSide : Side
  stalkTimer : ℚ
  exposureTimer : ℚ
  wanderTimer : ℚ
  rngCheckTimer : ℚ
deriving DecidableEq, Repr

/-- The module-level initial `ghostState`. -/
def ghostInit : GhostState :=
  { phase := .wander, attackSide := .none, stalkTimer := 0, exposureTimer := 0,
    wanderTimer := 0, rngCheckTimer := 0 }

/-- `teleportToDoor(side)`: enter Stalk at the chosen door and reset
both stalk timers. -/
def teleportToDoor (s : GhostState) (side : Side) : GhostState :=
  { s with phase := .stalk, attackSide := side, stalkTimer := 0, exposureTimer := 0 }

/-- `handleStalkPhase(dt, camera, gameState, cb)`: accumulate
`stalkTimer`; when irradiated accumulate `exposureTimer` and banish to
Retreat at ≥ 2 s; finally attack when `stalkTimer` ≥ 4 s with
`exposureTimer` < 2 s.  `isIrradiated` abstracts the source's
flashlight-cone test (flashlight on and dot(camDir, toGhost) > 0.9). -/
def handleStalkPhase (s : GhostState) (dt : ℚ) (isIrradiated : Bool) : GhostState :=
  let s1 := { s with stalkTimer := s.stalkTimer + dt }
  let s2 :=
    if isIrradiated then
      let s1e := { s1 with exposureTimer := s1.exposureTimer + dt }
      if 2 ≤ s1e.exposureTimer then { s1e with phase := .retreat } else s1e
    else s1
  if (4 : ℚ) ≤ s2.stalkTimer ∧ s2.exposureTimer < (2 : ℚ) then { s2 with phase := .attack } else s2

/-- `onGhostHitByDoor`: forced retreat with both timers reset. -/
def onGhostHitByDoor (s : GhostState) : GhostState :=
  { s with phase := .retreat, stalkTimer := 0, exposureTimer := 0 }

/-- `resetEnemy`: back to Wander with both stalk timers reset. -/
def resetEnemy (s : GhostState) : GhostState :=
  { s with phase := .wander, stalkTimer := 0, exposureTimer := 0 }

/-- A run of stalk-phase frames that are all irradiated. -/
def irrRun (s : GhostState) (dts : List ℚ) : GhostState :=
  dts.foldl (fun t dt => handleStalkPhase t dt true) s

/-- A run of stalk-phase frames with no irradiation. -/
def offRun (s : GhostState) (dts : List ℚ) : GhostState :=
  dts.foldl (fun t dt => handleStalkPhase t dt false) s

/-- A 3-vector over ℚ (THREE.Vector3 for game-logic purposes). -/
structure Vec3 where
  x : ℚ
  y : ℚ
  z : ℚ
deriving DecidableEq, Repr

/-- `Vector3.lerp(q, a)`: p + (q - p) * a, componentwise. -/
def lerp3 (p q : Vec3) (a : ℚ) : Vec3 :=
  { x := p.x + (q.x - p.x) * a,
    y := p.y + (q.y - p.y) * a,
    z := p.z + (q.z - p.z) * a }

/-- Squared Euclidean distance.  The source's `distanceTo(q) < 0.5` is
expressed root-free as `distSq p q < 1/4` (equivalent, both sides being
nonnegative). -/
def distSq (p q : Vec3) : ℚ :=
  (p.x - q.x) ^ 2 + (p.y - q.y) ^ 2 + (p.z - q.z) ^ 2

/-- The state touched by an `animate` frame while the ghost is in the
Attack phase: ghost mesh position plus the session flags read by the
frame guard and written by `onGameOver`. -/
structure AttackFrameState where
  ghostPos : Vec3
  isPlaying : Bool
  isGameOver : Bool
deriving DecidableEq, Repr

/-- One `animate` frame during the Attack phase: the
`isPlaying && !isGameOver` guard around `updateEnemy`, then
`handleAttackPhase` (lerp toward the camera by dt * 8, then fire the
game-over callback when within distance 0.5), with `onGameOver`'s state
effects (isPlaying := false, isGameOver := true).  The second component
counts the frame's game-over callback invocations; the handler has a
single call site, so it is 0 or 1.  `handleAttackPhase` never leaves the
Attack phase, so consecutive session frames stay in this shape. -/
def attackFrame (s : AttackFrameState) (dt : ℚ) (cam : Vec3) : AttackFrameState × Nat :=
  if s.isPlaying && !s.isGameOver then
    let p := lerp3 s.ghostPos cam (dt * 8)
    if distSq p cam < 1/4 then
      ({ ghostPos := p, isPlaying := false, isGameOver := true }, 1)
    else
      ({ s with ghostPos := p }, 0)
  else (s, 0)

/-- Total number of game-over callback invocations over a list of
Attack-phase frames, each given by its dt and camera position. -/
def attackRunCount (s : AttackFrameState) : List (ℚ × Vec3) → Nat
  | [] => 0
  | f :: fs =>
    let r := attackFrame s f.1 f.2
    r.2 + attackRunCount r.1 fs

/-- The main module's mutable session state: the `gameState` flags, the
flashlight system and the ghost. -/
structure GameFullState where
  leftOpen : Bool
  rightOpen : Bool
  leftBroken : Bool
  rightBroken : Bool
  isPlaying : Bool
  isGameOver : Bool
  fl : FlashlightState
  ghost : GhostState
deriving DecidableEq, Repr

/-- `restartGame()`: clear the session flags, reopen and repair both
doors, set the battery to 6 and clear depletion, turn the flashlight off
via `toggle` when it is on, and reset the enemy.  (Camera and UI effects
are visual.) -/
def restartGame (g : GameFullState) : GameFullState :=
  let fl1 := { g.fl with battery := 6, isDepleted := false }
  let fl2 := if fl1.isOn then toggle fl1 else fl1
  { g with isGameOver := false, isPlaying := false,
           leftOpen := true, rightOpen := true,
           leftBroken := false, rightBroken := false,
           fl := fl2, ghost := resetEnemy g.ghost }

/-! ## Flashlight theorems -/

/-- `toggle` keeps the battery within [0, maxBattery]. -/
theorem toggle_battery_bounds (s : FlashlightState) (h0 : 0 ≤ s.battery)
    (h6 : s.battery ≤ maxBattery) :
    0 ≤ (toggle s).battery ∧ (toggle s).battery ≤ maxBattery := by
  simp only [toggle, consumeBatteryStep, maxBattery] at *
  split_ifs <;> simp_all <;>
    first
      | (constructor <;> linarith)
      | linarith

/-- `update` with nonnegative dt keeps the battery within [0, maxBattery]. -/
theorem update_battery_bounds (s : FlashlightState) (dt : ℚ) (hdt : 0 ≤ dt)
    (h0 : 0 ≤ s.battery) (h6 : s.battery ≤ maxBattery) :
    0 ≤ (update s dt).battery ∧ (update s dt).battery ≤ maxBattery := by
  simp only [update, consumeBatteryStep, maxBattery, drainRate, rechargeDelay,
    passiveRechargeSpeed] at *
  split_ifs <;> simp_all <;>
    first
      | (constructor <;> linarith)
      | linarith

/-- Each flashlight operation with nonnegative frame time keeps the
battery within [0, maxBattery]. -/
theorem applyFlOp_battery_bounds (s : FlashlightState) (op : FlOp) (hop : op.dtOk)
    (h0 : 0 ≤ s.battery) (h6 : s.battery ≤ maxBattery) :
    0 ≤ (applyFlOp s op).battery ∧ (applyFlOp s op).battery ≤ maxBattery := by
  cases op with
  | press => exact ⟨h0, h6⟩
  | release =>
    simp only [applyFlOp, releaseButton]
    split_ifs
    · exact ⟨h0, h6⟩
    · exact toggle_battery_bounds s h0 h6
  | tog => exact toggle_battery_bounds s h0 h6
  | upd dt => exact update_battery_bounds s dt hop h0 h6

/-- Battery bounds propagate through any operation sequence. -/
theorem applyFlOps_battery_bounds (ops : List FlOp) :
    ∀ s : FlashlightState, (∀ op ∈ ops, op.dtOk) →
    0 ≤ s.battery → s.battery ≤ maxBattery →
    0 ≤ (applyFlOps s ops).battery ∧ (applyFlOps s ops).battery ≤ maxBattery := by
  induction ops with
  | nil => intro s _ h0 h6; exact ⟨h0, h6⟩
  | cons op rest ih =>
    intro s h h0 h6
    have hop : op.dtOk := h op (List.mem_cons_self op rest)
    have hstep := applyFlOp_battery_bounds s op hop h0 h6
    have hrest : ∀ o ∈ rest, o.dtOk := fun o ho => h o (List.mem_cons_of_mem op ho)
    simpa [applyFlOps] using ih (applyFlOp s op) hrest hstep.1 hstep.2

/-- Claim C6: for every sequence of flashlight operations
(pressButton / releaseButton / toggle) and update(dt) calls with dt ≥ 0,
starting from the constructed initial state, the battery level satisfies
0 ≤ battery ≤ 6 (= maxBattery) throughout. -/
theorem c6_battery_bounds (ops : List FlOp) (h : ∀ op ∈ ops, op.dtOk) :
    0 ≤ (applyFlOps flInit ops).battery ∧
    (applyFlOps flInit ops).battery ≤ maxBattery := by
  have h0 : (0 : ℚ) ≤ flInit.battery := by norm_num [flInit, maxBattery]
  have h6 : flInit.battery ≤ maxBattery := le_refl _
  exact applyFlOps_battery_bounds ops flInit h h0 h6

/-- Witness for C6 at a concrete operation sequence. -/
theorem c6_battery_bounds_witness :
    (∀ op ∈ [FlOp.tog, FlOp.upd 3, FlOp.release, FlOp.upd 2], op.dtOk) ∧
    (0 ≤ (applyFlOps flInit [FlOp.tog, FlOp.upd 3, FlOp.release, FlOp.upd 2]).battery ∧
      (applyFlOps flInit [FlOp.tog, FlOp.upd 3, FlOp.release, FlOp.upd 2]).battery ≤ maxBattery) :=
  ⟨by norm_num [FlOp.dtOk],
   c6_battery_bounds [FlOp.tog, FlOp.upd 3, FlOp.release, FlOp.upd 2] (by norm_num [FlOp.dtOk])⟩

/-- Claim C8: turning on is rejected when battery < 1: with isOn = false
and battery < 1, `toggle` changes no state; and while depleted,
`releaseButton` does not call `toggle`, so the flashlight cannot be
turned on during the recharge delay. -/
theorem c8_depletion_gate (s : FlashlightState) :
    (s.isOn = false → s.battery < 1 → toggle s = s) ∧
    (s.isDepleted = true → releaseButton s = s) := by
  constructor
  · intro hOn hB
    simp [toggle, hOn, hB]
  · intro hD
    simp [releaseButton, hD]

/-- Witness for C8: a low-battery off state and a depleted state. -/
theorem c8_depletion_gate_witness :
    ((⟨false, false, 1/2, 0, 0⟩ : FlashlightState).isOn = false ∧
      (⟨false, false, 1/2, 0, 0⟩ : FlashlightState).battery < 1 ∧
      toggle (⟨false, false, 1/2, 0, 0⟩ : FlashlightState) =
        (⟨false, false, 1/2, 0, 0⟩ : FlashlightState)) ∧
    ((⟨false, true, 0, 0, 2⟩ : FlashlightState).isDepleted = true ∧
      releaseButton (⟨false, true, 0, 0, 2⟩ : FlashlightState) =
        (⟨false, true, 0, 0, 2⟩ : FlashlightState)) :=
  ⟨⟨rfl, by norm_num,
    (c8_depletion_gate _).1 rfl (by norm_num)⟩,
   ⟨rfl, (c8_depletion_gate _).2 rfl⟩⟩

/-- While depleted, `update` only accumulates the recharge timer as long
as it stays below the delay: battery and depletion are untouched. -/
theorem depleted_run (dts : List ℚ) :
    ∀ s : FlashlightState, s.isDepleted = true → (∀ x ∈ dts, 0 ≤ x) →
    s.rechargeTimer + dts.sum < rechargeDelay →
    (dts.foldl update s).isDepleted = true ∧
    (dts.foldl update s).battery = s.battery ∧
    (dts.foldl update s).rechargeTimer = s.rechargeTimer + dts.sum := by
  induction dts with
  | nil => intro s hD _ _; simpa using hD
  | cons d rest ih =>
    intro s hD hnn hsum
    have hd : 0 ≤ d := hnn d (List.mem_cons_self d rest)
    have hrest : ∀ x ∈ rest, 0 ≤ x := fun x hx => hnn x (List.mem_cons_of_mem d hx)
    have hrsum : 0 ≤ rest.sum := List.sum_nonneg hrest
    have hsum' : s.rechargeTimer + d + rest.sum < rechargeDelay := by
      simp only [List.sum_cons] at hsum; linarith
    have hlt : ¬ rechargeDelay ≤ s.rechargeTimer + d := by
      intro hge; linarith
    have hstep : update s d =
        { s with isOn := false, rechargeTimer := s.rechargeTimer + d } := by
      simp [update, hD, hlt]
    have := ih { s with isOn := false, rechargeTimer := s.rechargeTimer + d }
      (by simpa using hD) hrest (by simpa using hsum')
    simp only [List.foldl_cons, hstep, List.sum_cons]
    refine ⟨this.1, this.2.1, ?_⟩
    rw [this.2.2]; ring

/-- Claim C9: from the moment of depletion (isDepleted with
rechargeTimer 0), while the accumulated update time stays below 5 s the
state remains depleted with the battery untouched; on the first update
reaching 5 s the battery becomes exactly 1.1, depletion clears, and the
recharge timer resets to 0. -/
theorem c9_recovery_timing (s : FlashlightState) (hD : s.isDepleted = true)
    (hR : s.rechargeTimer = 0) :
    (∀ dts : List ℚ, (∀ x ∈ dts, 0 ≤ x) → dts.sum < rechargeDelay →
      (dts.foldl update s).isDepleted = true ∧
      (dts.foldl update s).battery = s.battery ∧
      (dts.foldl update s).rechargeTimer = dts.sum) ∧
    (∀ pre : List ℚ, ∀ d : ℚ, (∀ x ∈ pre, 0 ≤ x) → 0 ≤ d →
      pre.sum < rechargeDelay → rechargeDelay ≤ pre.sum + d →
      ((pre ++ [d]).foldl update s).isDepleted = false ∧
      ((pre ++ [d]).foldl update s).battery = 11/10 ∧
      ((pre ++ [d]).foldl update s).rechargeTimer = 0) := by
  constructor
  · intro dts hnn hsum
    have := depleted_run dts s hD hnn (by rw [hR]; simpa using hsum)
    simpa [hR] using this
  · intro pre d hnn hd hpre hreach
    have hrun := depleted_run pre s hD hnn (by rw [hR]; simpa using hpre)
    have hends : (pre ++ [d]).foldl update s = update (pre.foldl update s) d := by
      simp [List.foldl_append]
    have hge : rechargeDelay ≤ (pre.foldl update s).rechargeTimer + d := by
      rw [hrun.2.2, hR]; simpa using hreach
    rw [hends]
    simp [update, hrun.1, hge]

/-- Witness for C9: deplete, wait 2 s twice (still depleted), then 1 s
more to reach the 5 s delay. -/
theorem c9_recovery_timing_witness :
    ((⟨false, true, 0, 0, 0⟩ : FlashlightState).isDepleted = true) ∧
    (([2, 2].foldl update (⟨false, true, 0, 0, 0⟩ : FlashlightState)).isDepleted = true ∧
      ([2, 2].foldl update (⟨false, true, 0, 0, 0⟩ : FlashlightState)).rechargeTimer = 4) ∧
    ((([2, 2] ++ [1]).foldl update (⟨false, true, 0, 0, 0⟩ : FlashlightState)).isDepleted = false ∧
      (([2, 2] ++ [1]).foldl update (⟨false, true, 0, 0, 0⟩ : FlashlightState)).battery = 11/10 ∧
      (([2, 2] ++ [1]).foldl update
        (⟨false, true, 0, 0, 0⟩ : FlashlightState)).rechargeTimer = 0) := by
  have h := c9_recovery_timing (⟨false, true, 0, 0, 0⟩ : FlashlightState) rfl rfl
  refine ⟨rfl, ⟨?_, ?_⟩, ?_⟩
  · exact (h.1 [2, 2] (by norm_num) (by norm_num [rechargeDelay])).1
  · have h22 := (h.1 [2, 2] (by norm_num) (by norm_num [rechargeDelay])).2.2
    norm_num at h22
    exact h22
  · exact h.2 [2, 2] 1 (by norm_num) (by norm_num) (by norm_num [rechargeDelay])
      (by norm_num [rechargeDelay])

/-- Claim C10: calling `toggle` while off, not depleted, and with the
battery at a level the immediate one-unit consumption drives to ≤ 0
(1 ≤ battery and battery - 1 ≤ 0) does not produce a lit flashlight:
the call ends off, depleted, with battery 0. -/
theorem c10_toggle_instant_depletion (s : FlashlightState) (h1 : s.isOn = false)
    (h2 : s.isDepleted = false) (h3 : 1 ≤ s.battery) (h4 : s.battery - 1 ≤ 0) :
    (toggle s).isOn = false ∧ (toggle s).isDepleted = true ∧ (toggle s).battery = 0 := by
  have hguard : ¬ s.battery < 1 := by linarith
  simp [toggle, hguard, h1, consumeBatteryStep, h4]

/-- Witness for C10 at battery exactly 1. -/
theorem c10_toggle_instant_depletion_witness :
    ((⟨false, false, 1, 0, 0⟩ : FlashlightState).isOn = false ∧
      (1 : ℚ) ≤ (⟨false, false, 1, 0, 0⟩ : FlashlightState).battery) ∧
    ((toggle (⟨false, false, 1, 0, 0⟩ : FlashlightState)).isOn = false ∧
      (toggle (⟨false, false, 1, 0, 0⟩ : FlashlightState)).isDepleted = true ∧
      (toggle (⟨false, false, 1, 0, 0⟩ : FlashlightState)).battery = 0) :=
  ⟨⟨rfl, by norm_num⟩,
   c10_toggle_instant_depletion _ rfl rfl (by norm_num) (by norm_num)⟩

/-! ## Door theorems -/

/-- Each door keypress preserves "not both doors closed". -/
theorem applyDoorOp_mutex (s : DoorsState) (op : DoorOp)
    (h : s.leftOpen = true ∨ s.rightOpen = true) :
    (applyDoorOp s op).leftOpen = true ∨ (applyDoorOp s op).rightOpen = true := by
  obtain ⟨lo, ro, lb, rb⟩ := s
  revert h
  cases op <;> rename_i b <;>
    cases b <;> cases lo <;> cases ro <;> cases lb <;> cases rb <;> decide

/-- "Not both doors closed" propagates through keypress sequences. -/
theorem applyDoorOps_mutex (ops : List DoorOp) :
    ∀ s : DoorsState, s.leftOpen = true ∨ s.rightOpen = true →
    (applyDoorOps s ops).leftOpen = true ∨ (applyDoorOps s ops).rightOpen = true := by
  induction ops with
  | nil => intro s h; exact h
  | cons op rest ih =>
    intro s h
    simpa [applyDoorOps] using ih (applyDoorOp s op) (applyDoorOp_mutex s op h)

/-- Claim C4: for every sequence of door toggle operations from the
initial state (both doors open), at no point are both doors closed. -/
theorem c4_door_mutex (ops : List DoorOp) :
    (applyDoorOps doorsInit ops).leftOpen = true ∨
    (applyDoorOps doorsInit ops).rightOpen = true :=
  applyDoorOps_mutex ops doorsInit (Or.inl rfl)

/-- A broken-and-open left door stays broken and open under any keypress. -/
theorem applyDoorOp_brokenLeft (s : DoorsState) (op : DoorOp)
    (h : s.leftBroken = true ∧ s.leftOpen = true) :
    (applyDoorOp s op).leftBroken = true ∧ (applyDoorOp s op).leftOpen = true := by
  obtain ⟨lo, ro, lb, rb⟩ := s
  revert h
  cases op <;> rename_i b <;>
    cases b <;> cases lo <;> cases ro <;> cases lb <;> cases rb <;> decide

/-- A broken-and-open right door stays broken and open under any keypress. -/
theorem applyDoorOp_brokenRight (s : DoorsState) (op : DoorOp)
    (h : s.rightBroken = true ∧ s.rightOpen = true) :
    (applyDoorOp s op).rightBroken = true ∧ (applyDoorOp s op).rightOpen = true := by
  obtain ⟨lo, ro, lb, rb⟩ := s
  revert h
  cases op <;> rename_i b <;>
    cases b <;> cases lo <;> cases ro <;> cases lb <;> cases rb <;> decide

/-- Broken-and-open persists for the left door through any sequence. -/
theorem applyDoorOps_brokenLeft (ops : List DoorOp) :
    ∀ s : DoorsState, s.leftBroken = true → s.leftOpen = true →
    (applyDoorOps s ops).leftBroken = true ∧ (applyDoorOps s ops).leftOpen = true := by
  induction ops with
  | nil => intro s hb ho; exact ⟨hb, ho⟩
  | cons op rest ih =>
    intro s hb ho
    have hstep := applyDoorOp_brokenLeft s op ⟨hb, ho⟩
    simpa [applyDoorOps] using ih (applyDoorOp s op) hstep.1 hstep.2

/-- Broken-and-open persists for the right door through any sequence. -/
theorem applyDoorOps_brokenRight (ops : List DoorOp) :
    ∀ s : DoorsState, s.rightBroken = true → s.rightOpen = true →
    (applyDoorOps s ops).rightBroken = true ∧ (applyDoorOps s ops).rightOpen = true := by
  induction ops with
  | nil => intro s hb ho; exact ⟨hb, ho⟩
  | cons op rest ih =>
    intro s hb ho
    have hstep := applyDoorOp_brokenRight s op ⟨hb, ho⟩
    simpa [applyDoorOps] using ih (applyDoorOp s op) hstep.1 hstep.2

/-- Claim C5: once a door is breached (broken, forced open), it stays
broken and open under every subsequent keypress sequence, and pressing
that door's key is a no-op on the state, until reset/restart. -/
theorem c5_broken_door_permanence (s : DoorsState) (ops : List DoorOp) :
    (s.leftBroken = true → s.leftOpen = true →
      (applyDoorOps s ops).leftBroken = true ∧ (applyDoorOps s ops).leftOpen = true ∧
      ∀ b, keydownQ b (applyDoorOps s ops) = applyDoorOps s ops) ∧
    (s.rightBroken = true → s.rightOpen = true →
      (applyDoorOps s ops).rightBroken = true ∧ (applyDoorOps s ops).rightOpen = true ∧
      ∀ b, keydownE b (applyDoorOps s ops) = applyDoorOps s ops) := by
  constructor
  · intro hb ho
    have h := applyDoorOps_brokenLeft ops s hb ho
    exact ⟨h.1, h.2, fun b => by simp [keydownQ, h.1]⟩
  · intro hb ho
    have h := applyDoorOps_brokenRight ops s hb ho
    exact ⟨h.1, h.2, fun b => by simp [keydownE, h.1]⟩

/-- Witness for C5: break both doors on a blocking ghost from the
initial state, then press both keys again. -/
theorem c5_broken_door_permanence_witness :
    ((applyDoorOps doorsInit [DoorOp.q true, DoorOp.e true]).leftBroken = true ∧
      (applyDoorOps doorsInit [DoorOp.q true, DoorOp.e true]).rightBroken = true) ∧
    ((applyDoorOps (applyDoorOps doorsInit [DoorOp.q true, DoorOp.e true])
        [DoorOp.e false, DoorOp.q false]).leftBroken = true ∧
      (applyDoorOps (applyDoorOps doorsInit [DoorOp.q true, DoorOp.e true])
        [DoorOp.e false, DoorOp.q false]).leftOpen = true ∧
      keydownQ false (applyDoorOps (applyDoorOps doorsInit [DoorOp.q true, DoorOp.e true])
          [DoorOp.e false, DoorOp.q false]) =
        applyDoorOps (applyDoorOps doorsInit [DoorOp.q true, DoorOp.e true])
          [DoorOp.e false, DoorOp.q false]) ∧
    ((applyDoorOps (applyDoorOps doorsInit [DoorOp.q true, DoorOp.e true])
        [DoorOp.e false, DoorOp.q false]).rightBroken = true ∧
      (applyDoorOps (applyDoorOps doorsInit [DoorOp.q true, DoorOp.e true])
        [DoorOp.e false, DoorOp.q false]).rightOpen = true ∧
      keydownE false (applyDoorOps (applyDoorOps doorsInit [DoorOp.q true, DoorOp.e true])
          [DoorOp.e false, DoorOp.q false]) =
        applyDoorOps (applyDoorOps doorsInit [DoorOp.q true, DoorOp.e true])
          [DoorOp.e false, DoorOp.q false]) := by
  have h := c5_broken_door_permanence
    (applyDoorOps doorsInit [DoorOp.q true, DoorOp.e true]) [DoorOp.e false, DoorOp.q false]
  have hl := h.1 (by decide) (by decide)
  have hr := h.2 (by decide) (by decide)
  exact ⟨by decide, ⟨hl.1, hl.2.1, hl.2.2 false⟩, ⟨hr.1, hr.2.1, hr.2.2 false⟩⟩

/-! ## Ghost theorems -/

/-- Claim C1, counterexample: the banishment exit from Stalk does not
reset the timers.  From the initial state, teleporting to the left door
(entry to Stalk) and then one irradiated stalk frame of 2 s reaches the
banishment exit: the resulting state has phase Retreat with
exposureTimer = 2 ≠ 0, so "exposureTimer is nonzero only while
phase == Stalk" fails, and the timers are not reset on this exit. -/
theorem c1_timer_reset_counterexample :
    (handleStalkPhase (teleportToDoor ghostInit .left) 2 true).phase = .retreat ∧
    (handleStalkPhase (teleportToDoor ghostInit .left) 2 true).exposureTimer ≠ 0 := by
  norm_num [handleStalkPhase, teleportToDoor, ghostInit]

/-- Claim C1, amended: both timers are reset to 0 on every entry to
Stalk (`teleportToDoor`), on the door-hit exit to Retreat
(`onGhostHitByDoor`) and on `resetEnemy`; but the stalk-phase frame
itself (whose banishment exit to Retreat and timeout exit to Attack
live inside it) never resets them — it only adds the frame's dt — so
exposureTimer can remain nonzero after Stalk ends, until the next Stalk
entry or a reset. -/
theorem c1_timer_reset_amended (s : GhostState) (side : Side) (dt : ℚ) (irr : Bool) :
    ((teleportToDoor s side).phase = .stalk ∧
      (teleportToDoor s side).stalkTimer = 0 ∧
      (teleportToDoor s side).exposureTimer = 0) ∧
    ((onGhostHitByDoor s).phase = .retreat ∧
      (onGhostHitByDoor s).stalkTimer = 0 ∧
      (onGhostHitByDoor s).exposureTimer = 0) ∧
    ((resetEnemy s).phase = .wander ∧
      (resetEnemy s).stalkTimer = 0 ∧
      (resetEnemy s).exposureTimer = 0) ∧
    ((handleStalkPhase s dt irr).stalkTimer = s.stalkTimer + dt ∧
      (handleStalkPhase s dt irr).exposureTimer =
        s.exposureTimer + (if irr then dt else 0)) := by
  refine ⟨⟨rfl, rfl, rfl⟩, ⟨rfl, rfl, rfl⟩, ⟨rfl, rfl, rfl⟩, ?_, ?_⟩ <;>
    simp only [handleStalkPhase] <;> split_ifs <;> simp

/-- Continuously irradiated stalk frames below the 2 s exposure target
keep the phase Stalk and advance both timers in lockstep. -/
theorem irrRun_below_target (dts : List ℚ) :
    ∀ s : GhostState, (∀ x ∈ dts, 0 ≤ x) → s.phase = .stalk →
    s.exposureTimer = s.stalkTimer → s.stalkTimer + dts.sum < 2 →
    (irrRun s dts).phase = .stalk ∧
    (irrRun s dts).stalkTimer = s.stalkTimer + dts.sum ∧
    (irrRun s dts).exposureTimer = s.stalkTimer + dts.sum := by
  induction dts with
  | nil => intro s _ hp he _; exact ⟨hp, by simp [irrRun], by simp [irrRun, he]⟩
  | cons d rest ih =>
    intro s hnn hp he hsum
    have hd : 0 ≤ d := hnn d (List.mem_cons_self d rest)
    have hrest : ∀ x ∈ rest, 0 ≤ x := fun x hx => hnn x (List.mem_cons_of_mem d hx)
    have hrsum : 0 ≤ rest.sum := List.sum_nonneg hrest
    have hlt : s.stalkTimer + d < 2 := by
      simp only [List.sum_cons] at hsum; linarith
    have hexp : ¬ (2 : ℚ) ≤ s.exposureTimer + d := by rw [he]; linarith
    have hatk : ¬ ((4 : ℚ) ≤ s.stalkTimer + d ∧ s.exposureTimer + d < 2) := by
      rintro ⟨h4, -⟩; linarith
    have hstep : handleStalkPhase s d true =
        { s with stalkTimer := s.stalkTimer + d, exposureTimer := s.exposureTimer + d } := by
      simp [handleStalkPhase, hexp, hatk]
    have hih := ih { s with stalkTimer := s.stalkTimer + d, exposureTimer := s.exposureTimer + d }
      hrest (by simpa using hp) (by simp [he])
      (by simp only [List.sum_cons] at hsum; dsimp only; linarith)
    simp only [irrRun, List.foldl_cons, hstep] at hih ⊢
    refine ⟨hih.1, ?_, ?_⟩ <;> rw [List.sum_cons] <;>
      first
        | (rw [hih.2.1]; ring)
        | (rw [hih.2.2]; ring)

/-- Non-irradiated stalk frames below the 4 s stalk limit keep the phase
Stalk, advance only the stalk timer, and leave the exposure timer
untouched (no decay). -/
theorem offRun_below_limit (dts : List ℚ) :
    ∀ s : GhostState, (∀ x ∈ dts, 0 ≤ x) → s.phase = .stalk →
    s.exposureTimer < 2 → s.stalkTimer + dts.sum < 4 →
    (offRun s dts).phase = .stalk ∧
    (offRun s dts).stalkTimer = s.stalkTimer + dts.sum ∧
    (offRun s dts).exposureTimer = s.exposureTimer := by
  induction dts with
  | nil => intro s _ hp _ _; exact ⟨hp, by simp [offRun], by simp [offRun]⟩
  | cons d rest ih =>
    intro s hnn hp he hsum
    have hd : 0 ≤ d := hnn d (List.mem_cons_self d rest)
    have hrest : ∀ x ∈ rest, 0 ≤ x := fun x hx => hnn x (List.mem_cons_of_mem d hx)
    have hrsum : 0 ≤ rest.sum := List.sum_nonneg hrest
    have hatk : ¬ ((4 : ℚ) ≤ s.stalkTimer + d ∧ s.exposureTimer < 2) := by
      rintro ⟨h4, -⟩
      simp only [List.sum_cons] at hsum
      linarith
    have hstep : handleStalkPhase s d false =
        { s with stalkTimer := s.stalkTimer + d } := by
      simp [handleStalkPhase, hatk]
    have hih := ih { s with stalkTimer := s.stalkTimer + d }
      hrest (by simpa using hp) (by simpa using he)
      (by simp only [List.sum_cons] at hsum; dsimp only; linarith)
    simp only [offRun, List.foldl_cons, hstep] at hih ⊢
    refine ⟨hih.1, ?_, ?_⟩
    · rw [List.sum_cons, hih.2.1]; ring
    · rw [hih.2.2]

/-- Claim C7: from a fresh Stalk entry (phase Stalk, both timers 0):
(a) continuous irradiation transitions the phase to Retreat (banishment)
on the frame where accumulated exposure reaches 2.0 s; (b) if
irradiation accumulates less than 2.0 s and then stops, the exposure
does not decay, and the phase transitions to Attack on the frame where
the stalk timer reaches 4.0 s. -/
theorem c7_stalk_outcomes (s : GhostState) (hp : s.phase = .stalk)
    (hst : s.stalkTimer = 0) (hex : s.exposureTimer = 0) :
    (∀ pre : List ℚ, ∀ d : ℚ, (∀ x ∈ pre, 0 ≤ x) → 0 ≤ d →
      pre.sum < 2 → 2 ≤ pre.sum + d →
      (handleStalkPhase (irrRun s pre) d true).phase = .retreat) ∧
    (∀ irrs offPre : List ℚ, ∀ d : ℚ,
      (∀ x ∈ irrs, 0 ≤ x) → (∀ x ∈ offPre, 0 ≤ x) → 0 ≤ d →
      irrs.sum < 2 → irrs.sum + offPre.sum < 4 → 4 ≤ irrs.sum + offPre.sum + d →
      (handleStalkPhase (offRun (irrRun s irrs) offPre) d false).phase = .attack) := by
  constructor
  · intro pre d hnn hd hpre hreach
    have hrun := irrRun_below_target pre s hnn hp (by rw [hst, hex]) (by rw [hst]; linarith)
    have hexp : (2 : ℚ) ≤ (irrRun s pre).exposureTimer + d := by
      rw [hrun.2.2, hst]; linarith
    have hnot : ¬ ((4 : ℚ) ≤ (irrRun s pre).stalkTimer + d ∧
        (irrRun s pre).exposureTimer + d < 2) := by
      rintro ⟨-, hlt⟩; linarith
    simp [handleStalkPhase, hexp, hnot]
  · intro irrs offPre d hnn1 hnn2 hd hirr hoff hreach
    have hrun1 := irrRun_below_target irrs s hnn1 hp (by rw [hst, hex]) (by rw [hst]; linarith)
    have hrun2 := offRun_below_limit offPre (irrRun s irrs) hnn2 hrun1.1
      (by rw [hrun1.2.2, hst]; linarith) (by rw [hrun1.2.1, hst]; linarith)
    have hatk : (4 : ℚ) ≤ (offRun (irrRun s irrs) offPre).stalkTimer + d ∧
        (offRun (irrRun s irrs) offPre).exposureTimer < 2 := by
      constructor
      · rw [hrun2.2.1, hrun1.2.1, hst]; linarith
      · rw [hrun2.2.2, hrun1.2.2, hst]; linarith
    simp [handleStalkPhase, hatk.1, hatk.2]

/-- Witness for C7: enter Stalk by teleporting to the left door; (a)
irradiate 1 s then 1 s more → Retreat; (b) irradiate 1 s, stop for 2 s,
then a 1 s frame reaching the 4 s limit → Attack. -/
theorem c7_stalk_outcomes_witness :
    ((teleportToDoor ghostInit .left).phase = .stalk ∧
      (teleportToDoor ghostInit .left).stalkTimer = 0 ∧
      (teleportToDoor ghostInit .left).exposureTimer = 0) ∧
    (handleStalkPhase (irrRun (teleportToDoor ghostInit .left) [1]) 1 true).phase = .retreat ∧
    (handleStalkPhase (offRun (irrRun (teleportToDoor ghostInit .left) [1]) [2]) 1
      false).phase = .attack := by
  have h := c7_stalk_outcomes (teleportToDoor ghostInit .left) rfl rfl rfl
  refine ⟨⟨rfl, rfl, rfl⟩, ?_, ?_⟩
  · exact h.1 [1] 1 (by norm_num) (by norm_num) (by norm_num) (by norm_num)
  · exact h.2 [1] [2] 1 (by norm_num) (by norm_num) (by norm_num) (by norm_num)
      (by norm_num) (by norm_num)

/-! ## Attack-phase game-over theorems -/

/-- Once the session is over, no later frame fires the game-over
callback: the `isPlaying && !isGameOver` guard blocks `updateEnemy`. -/
theorem attackRunCount_after_gameover (frames : List (ℚ × Vec3)) :
    ∀ s : AttackFrameState, s.isGameOver = true → attackRunCount s frames = 0 := by
  induction frames with
  | nil => intro s _; rfl
  | cons f fs ih =>
    intro s h
    have hframe : attackFrame s f.1 f.2 = (s, 0) := by
      simp [attackFrame, h]
    simp only [attackRunCount, hframe]
    simpa using ih s h

/-- Claim C3: in the Attack phase, once the ghost's lerped position
comes within distance 0.5 of the camera on a live frame, the game-over
callback fires exactly once on that frame, zero times on every later
frame of the session, and exactly once over the whole remaining run. -/
theorem c3_gameover_fires_once (s : AttackFrameState) (frames : List (ℚ × Vec3))
    (dt : ℚ) (cam : Vec3) (hp : s.isPlaying = true) (hg : s.isGameOver = false)
    (hd : distSq (lerp3 s.ghostPos cam (dt * 8)) cam < 1/4) :
    (attackFrame s dt cam).2 = 1 ∧
    attackRunCount (attackFrame s dt cam).1 frames = 0 ∧
    attackRunCount s ((dt, cam) :: frames) = 1 := by
  have hd' : distSq (lerp3 s.ghostPos cam (dt * 8)) cam < (4 : ℚ)⁻¹ := by
    rw [show ((4 : ℚ))⁻¹ = 1 / 4 by norm_num]
    exact hd
  have hframe : attackFrame s dt cam =
      ({ ghostPos := lerp3 s.ghostPos cam (dt * 8), isPlaying := false,
         isGameOver := true }, 1) := by
    simp [attackFrame, hp, hg, hd']
  have hrest : attackRunCount (attackFrame s dt cam).1 frames = 0 := by
    rw [hframe]
    exact attackRunCount_after_gameover frames _ rfl
  refine ⟨by rw [hframe], hrest, ?_⟩
  simp only [attackRunCount]
  rw [hframe] at hrest ⊢
  simpa using hrest

/-- Witness for C3: ghost 0.1 in front of the camera, three 1/60 s
frames; the callback fires once in total. -/
theorem c3_gameover_fires_once_witness :
    ((⟨⟨0, 5, 49/10⟩, true, false⟩ : AttackFrameState).isPlaying = true ∧
      distSq (lerp3 (⟨0, 5, 49/10⟩ : Vec3) (⟨0, 5, 5⟩ : Vec3) (1/60 * 8)) ⟨0, 5, 5⟩ < 1/4) ∧
    ((attackFrame (⟨⟨0, 5, 49/10⟩, true, false⟩ : AttackFrameState) (1/60) ⟨0, 5, 5⟩).2 = 1 ∧
      attackRunCount (attackFrame (⟨⟨0, 5, 49/10⟩, true, false⟩ : AttackFrameState)
        (1/60) ⟨0, 5, 5⟩).1 [(1/60, ⟨0, 5, 5⟩), (1/60, ⟨0, 5, 5⟩)] = 0 ∧
      attackRunCount (⟨⟨0, 5, 49/10⟩, true, false⟩ : AttackFrameState)
        [(1/60, ⟨0, 5, 5⟩), (1/60, ⟨0, 5, 5⟩), (1/60, ⟨0, 5, 5⟩)] = 1) :=
  ⟨⟨rfl, by norm_num [distSq, lerp3]⟩,
   c3_gameover_fires_once (⟨⟨0, 5, 49/10⟩, true, false⟩ : AttackFrameState)
     [(1/60, ⟨0, 5, 5⟩), (1/60, ⟨0, 5, 5⟩)] (1/60) ⟨0, 5, 5⟩ rfl rfl
     (by norm_num [distSq, lerp3])⟩

/-! ## Restart theorems -/

/-- Claim C2, counterexample: restart does not restore the flashlight's
full constructed initial state.  Reachable from start-up: turn the
flashlight on, drain it with five 3 s updates until depletion, then one
more 3 s update accumulates rechargeTimer = 3; `restartGame` leaves that
rechargeTimer at 3 ≠ 0, so the post-restart flashlight state differs
from the constructed initial state (which has rechargeTimer = 0). -/
theorem c2_restart_counterexample :
    (restartGame
      { leftOpen := true, rightOpen := true, leftBroken := false, rightBroken := false,
        isPlaying := true, isGameOver := false,
        fl := applyFlOps flInit [.tog, .upd 3, .upd 3, .upd 3, .upd 3, .upd 3, .upd 3],
        ghost := ghostInit }).fl.rechargeTimer ≠ 0 ∧
    flInit.rechargeTimer = 0 := by
  constructor
  · norm_num [restartGame, resetEnemy, toggle, consumeBatteryStep, applyFlOps, applyFlOp,
      update, flInit, maxBattery, drainRate, rechargeDelay, passiveRechargeSpeed]
  · rfl

/-- Claim C2, amended: after `restartGame`, both doors are open and
unbroken, the flashlight has battery 6, is off and not depleted, and the
ghost is in Wander with both stalk timers 0 — but the flashlight's
usageTimer and rechargeTimer are left unchanged rather than restored to
their initial value 0. -/
theorem c2_restart_resets (g : GameFullState) :
    (restartGame g).leftOpen = true ∧ (restartGame g).rightOpen = true ∧
    (restartGame g).leftBroken = false ∧ (restartGame g).rightBroken = false ∧
    (restartGame g).isPlaying = false ∧ (restartGame g).isGameOver = false ∧
    (restartGame g).fl.battery = 6 ∧ (restartGame g).fl.isOn = false ∧
    (restartGame g).fl.isDepleted = false ∧
    (restartGame g).ghost.phase = .wander ∧
    (restartGame g).ghost.stalkTimer = 0 ∧ (restartGame g).ghost.exposureTimer = 0 ∧
    (restartGame g).fl.usageTimer = g.fl.usageTimer ∧
    (restartGame g).fl.rechargeTimer = g.fl.rechargeTimer := by
  by_cases hOn : g.fl.isOn = true <;>
    simp [restartGame, resetEnemy, toggle, hOn]

end NightShift
